import Mathlib

/-!
# Verification of the AI-Enabled-Security-Scan aggregation core

Shallow embedding of the result-aggregation / resilient-degradation pipeline
of the repository (`src/ai-analyzer.js`, the `TestRunner` orchestrator, and
`config/config.example.js`), together with proofs settling the frozen claims.

JavaScript numbers are modelled as `ℚ` (all arithmetic in the embedded code is
exact at this granularity), strings as `String`, optional / possibly-undefined
values as `Option`, thrown exceptions as `Except String`, and wall-clock reads
(`new Date().toISOString()`) as explicit `String` parameters.
-/

namespace SecScan

/-- AI-derived annotation attached to a vulnerability by
`AIAnalyzer.analyzeVulnerability` (`src/ai-analyzer.js`, the `aiAnalysis`
object). All fields are the raw section texts extracted from the model
response. -/
structure AiAnalysis where
  businessImpact : String
  technicalSeverity : String
  exploitationLikelihood : String
  falsePositiveScore : String
  remediationSteps : String
  codeExamples : String
  businessRiskScore : String
  fullAnalysis : String
  analyzedAt : String
deriving DecidableEq, Repr

/-- A security finding as produced by the ZAP scanner collaborator
(see the alert objects in `TestRunner.addMockFindings` and the JSDoc of
`AIAnalyzer.analyzeVulnerability`). `risk` is `Option` because the scanner
may omit it (`vuln.risk?.toLowerCase()` in the source guards for that). -/
structure Vuln where
  alert : String
  risk : Option String
  description : String
  url : String
  param : String
  evidence : String
  solution : String
  reference : String
  aiAnalysis : Option AiAnalysis
deriving DecidableEq, Repr

/-- A finding with no optional parts, used to build concrete inputs. -/
def mkVuln (alert : String) (risk : Option String) : Vuln :=
  ⟨alert, risk, "", "", "", "", "", "", none⟩

/-! ## Prioritization (`AIAnalyzer.prioritizeVulnerabilities`)

Source (`src/ai-analyzer.js` lines 484-493):

```js
prioritizeVulnerabilities(vulnerabilities) {
  const riskOrder = { 'high': 4, 'medium': 3, 'low': 2, 'informational': 1 };
  return vulnerabilities.sort((a, b) => {
    const aRisk = riskOrder[a.risk?.toLowerCase()] || 0;
    const bRisk = riskOrder[b.risk?.toLowerCase()] || 0;
    return bRisk - aRisk; // Descending order (high risk first)
  });
}
```

`Array.prototype.sort` is required by the ECMAScript spec to be a *stable*
sort and, crucially, sorts the array *in place* (the returned array is the
argument array). We model the sort as a stable insertion sort: for a
consistent comparator every stable sort produces the same output. -/

/-- `toLowerCase()`. Identical to `String.toLower` (ASCII per-character
lowering, which is what `toLowerCase` does on the severity strings involved)
but structurally recursive so the kernel can evaluate it. -/
def jsToLower (s : String) : String :=
  String.mk (s.data.map Char.toLower)

/-- The `riskOrder` lookup with the `|| 0` default: `riskOrder[undefined]`
and any string other than the four known ones give `0`. -/
def riskWeight (risk : Option String) : Nat :=
  match risk with
  | none => 0
  | some s =>
    match jsToLower s with
    | "high" => 4
    | "medium" => 3
    | "low" => 2
    | "informational" => 1
    | _ => 0

/-- The comparator passed to `sort`: `(a, b) => bRisk - aRisk`. -/
def vulnCompare (a b : Vuln) : Int :=
  (riskWeight b.risk : Int) - (riskWeight a.risk : Int)

/-- Insert `x` into an already-sorted list, skipping every element `y` with
`cmp x y ≥ 0` (i.e. `x` does not have to come before `y`). A later element
equal to an earlier one is placed after it, which is exactly stability. -/
def jsInsert (cmp : α → α → Int) (x : α) : List α → List α
  | [] => [x]
  | y :: ys => if 0 ≤ cmp x y then y :: jsInsert cmp x ys else x :: y :: ys

/-- Stable sort with a JS-style comparator, as stable insertion sort:
elements are taken left to right and each is inserted behind all earlier
elements it compares equal to. -/
def jsStableSort (cmp : α → α → Int) (l : List α) : List α :=
  l.foldl (fun acc x => jsInsert cmp x acc) []

/-- `AIAnalyzer.prioritizeVulnerabilities`. Because `Array.prototype.sort`
operates in place, after the JS call the caller's array *is* this returned
list (the original ordering is lost). -/
def prioritizeVulnerabilities (vulnerabilities : List Vuln) : List Vuln :=
  jsStableSort vulnCompare vulnerabilities

example :
    prioritizeVulnerabilities
      [mkVuln "a" (some "Low"), mkVuln "b" (some "High"),
       mkVuln "c" (some "High"), mkVuln "d" (some "Medium")] =
      [mkVuln "b" (some "High"), mkVuln "c" (some "High"),
       mkVuln "d" (some "Medium"), mkVuln "a" (some "Low")] := by decide

/-! ### Structure of the stable sort -/

theorem jsInsert_skip (cmp : α → α → Int) (x : α) (A B : List α)
    (h : ∀ y ∈ A, 0 ≤ cmp x y) :
    jsInsert cmp x (A ++ B) = A ++ jsInsert cmp x B := by
  induction A with
  | nil => rfl
  | cons a as ih =>
      have ha : 0 ≤ cmp x a := h a (by simp)
      simp only [List.cons_append, jsInsert, if_pos ha, List.append_eq]
      rw [ih fun y hy => h y (by simp [hy])]

theorem jsInsert_last (cmp : α → α → Int) (x : α) (L : List α)
    (h : ∀ y ∈ L, 0 ≤ cmp x y) :
    jsInsert cmp x L = L ++ [x] := by
  induction L with
  | nil => rfl
  | cons a as ih =>
      have ha : 0 ≤ cmp x a := h a (by simp)
      simp only [List.cons_append, jsInsert, if_pos ha, List.append_eq]
      rw [ih fun y hy => h y (by simp [hy])]

theorem jsInsert_stop (cmp : α → α → Int) (x : α) (B : List α)
    (h : ∀ y ∈ B, cmp x y < 0) :
    jsInsert cmp x B = x :: B := by
  cases B with
  | nil => rfl
  | cons b bs =>
      have hb : ¬ 0 ≤ cmp x b := not_le.mpr (h b (by simp))
      simp [jsInsert, hb]

theorem jsStableSort_concat (cmp : α → α → Int) (l : List α) (x : α) :
    jsStableSort cmp (l ++ [x]) = jsInsert cmp x (jsStableSort cmp l) := by
  simp [jsStableSort, List.foldl_append]

theorem jsInsert_perm (cmp : α → α → Int) (x : α) (l : List α) :
    (jsInsert cmp x l).Perm (x :: l) := by
  induction l with
  | nil => exact List.Perm.refl _
  | cons y ys ih =>
      by_cases h : 0 ≤ cmp x y
      · simpa [jsInsert, h] using ((ih.cons y).trans (List.Perm.swap x y ys))
      · simp [jsInsert, h]

theorem jsStableSort_perm (cmp : α → α → Int) (l : List α) :
    (jsStableSort cmp l).Perm l := by
  suffices h : ∀ (l acc : List α),
      (l.foldl (fun acc x => jsInsert cmp x acc) acc).Perm (acc ++ l) by
    simpa using h l []
  intro l
  induction l with
  | nil => intro acc; simp
  | cons x xs ih =>
      intro acc
      refine ((ih (jsInsert cmp x acc)).trans ?_)
      exact ((jsInsert_perm cmp x acc).append_right xs).trans
        List.perm_middle.symm

/-- Elements of the weight-`k` bucket of `l`. -/
def wFilter (k : Nat) (l : List Vuln) : List Vuln :=
  l.filter (fun v => riskWeight v.risk == k)

theorem mem_wFilter {k : Nat} {l : List Vuln} {v : Vuln}
    (h : v ∈ wFilter k l) : riskWeight v.risk = k := by
  have := (List.mem_filter.mp h).2
  simpa using this

theorem riskWeight_cases (r : Option String) :
    riskWeight r = 0 ∨ riskWeight r = 1 ∨ riskWeight r = 2 ∨
      riskWeight r = 3 ∨ riskWeight r = 4 := by
  unfold riskWeight
  cases r with
  | none => simp
  | some s => dsimp only; split <;> simp

/-- The stable sort by descending weight is exactly the concatenation of the
weight buckets, each in input order. This single identity packages
sortedness, stability and element preservation. -/
theorem prioritizeVulnerabilities_buckets (l : List Vuln) :
    prioritizeVulnerabilities l =
      wFilter 4 l ++ wFilter 3 l ++ wFilter 2 l ++ wFilter 1 l ++ wFilter 0 l := by
  induction l using List.reverseRecOn with
  | nil => rfl
  | append_singleton l x ih =>
      have hbuckets : ∀ k : Nat, wFilter k (l ++ [x]) =
          wFilter k l ++ if riskWeight x.risk = k then [x] else [] := by
        intro k
        by_cases hk : riskWeight x.risk = k <;>
          simp [wFilter, List.filter_append, hk]
      have hsort : prioritizeVulnerabilities (l ++ [x]) =
          jsInsert vulnCompare x (prioritizeVulnerabilities l) :=
        jsStableSort_concat vulnCompare l x
      have hge : ∀ (k : Nat), riskWeight x.risk ≤ k →
          ∀ y ∈ wFilter k l, 0 ≤ vulnCompare x y := by
        intro k hk y hy
        have := mem_wFilter hy
        unfold vulnCompare; omega
      have hlt : ∀ (k : Nat), k < riskWeight x.risk →
          ∀ y ∈ wFilter k l, vulnCompare x y < 0 := by
        intro k hk y hy
        have := mem_wFilter hy
        unfold vulnCompare; omega
      have hlt2 : ∀ (j k : Nat), j < riskWeight x.risk → k < riskWeight x.risk →
          ∀ y ∈ wFilter j l ++ wFilter k l, vulnCompare x y < 0 := by
        intro j k hj hk y hy
        rcases List.mem_append.mp hy with h | h
        · exact hlt j hj y h
        · exact hlt k hk y h
      have hlt3 : ∀ (i j k : Nat), i < riskWeight x.risk → j < riskWeight x.risk →
          k < riskWeight x.risk →
          ∀ y ∈ wFilter i l ++ (wFilter j l ++ wFilter k l), vulnCompare x y < 0 := by
        intro i j k hi hj hk y hy
        rcases List.mem_append.mp hy with h | h
        · exact hlt i hi y h
        · exact hlt2 j k hj hk y h
      have hlt4 : ∀ (i j k m : Nat), i < riskWeight x.risk → j < riskWeight x.risk →
          k < riskWeight x.risk → m < riskWeight x.risk →
          ∀ y ∈ wFilter i l ++ (wFilter j l ++ (wFilter k l ++ wFilter m l)),
            vulnCompare x y < 0 := by
        intro i j k m hi hj hk hm y hy
        rcases List.mem_append.mp hy with h | h
        · exact hlt i hi y h
        · exact hlt3 j k m hj hk hm y h
      rcases riskWeight_cases x.risk with hw | hw | hw | hw | hw
      · rw [hsort, ih]
        simp only [List.append_assoc]
        rw [jsInsert_skip _ _ _ _ (hge 4 (by omega)),
          jsInsert_skip _ _ _ _ (hge 3 (by omega)),
          jsInsert_skip _ _ _ _ (hge 2 (by omega)),
          jsInsert_skip _ _ _ _ (hge 1 (by omega)),
          jsInsert_last _ _ _ (hge 0 (by omega))]
        simp [hbuckets, hw]
      · rw [hsort, ih]
        simp only [List.append_assoc]
        rw [jsInsert_skip _ _ _ _ (hge 4 (by omega)),
          jsInsert_skip _ _ _ _ (hge 3 (by omega)),
          jsInsert_skip _ _ _ _ (hge 2 (by omega)),
          jsInsert_skip _ _ _ _ (hge 1 (by omega)),
          jsInsert_stop _ _ _ (hlt 0 (by omega))]
        simp [hbuckets, hw]
      · rw [hsort, ih]
        simp only [List.append_assoc]
        rw [jsInsert_skip _ _ _ _ (hge 4 (by omega)),
          jsInsert_skip _ _ _ _ (hge 3 (by omega)),
          jsInsert_skip _ _ _ _ (hge 2 (by omega)),
          jsInsert_stop _ _ _ (hlt2 1 0 (by omega) (by omega))]
        simp [hbuckets, hw]
      · rw [hsort, ih]
        simp only [List.append_assoc]
        rw [jsInsert_skip _ _ _ _ (hge 4 (by omega)),
          jsInsert_skip _ _ _ _ (hge 3 (by omega)),
          jsInsert_stop _ _ _ (hlt3 2 1 0 (by omega) (by omega) (by omega))]
        simp [hbuckets, hw]
      · rw [hsort, ih]
        simp only [List.append_assoc]
        rw [jsInsert_skip _ _ _ _ (hge 4 (by omega)),
          jsInsert_stop _ _ _
            (hlt4 3 2 1 0 (by omega) (by omega) (by omega) (by omega))]
        simp [hbuckets, hw]

/-! ## Claims C2 and C3 -/

/-- Severity weights exactly as the specification states them
(High 4, Medium 3, Low 2, Informational 1). Spec-side definition, written
from the claim's words, to compare against the code's `riskWeight`. -/
def specSeverityWeight : Option String → Nat
  | some "High" => 4
  | some "Medium" => 3
  | some "Low" => 2
  | some "Informational" => 1
  | _ => 0

/-- Claim C2: for every input list of findings whose severities are the four
enum values, `prioritizeVulnerabilities` returns the findings sorted by
severity weight descending with the weights High 4, Medium 3, Low 2,
Informational 1, and findings of equal severity keep their relative input
order. The bucket-concatenation identity is exactly this (descending order,
stability inside each severity class, and element preservation); the
`Pairwise` conjunct restates the descending order explicitly. -/
theorem prioritizeVulnerabilities_sorted_stable (l : List Vuln)
    (h : ∀ v ∈ l, v.risk = some "High" ∨ v.risk = some "Medium" ∨
      v.risk = some "Low" ∨ v.risk = some "Informational") :
    prioritizeVulnerabilities l =
      l.filter (fun v => v.risk == some "High") ++
        l.filter (fun v => v.risk == some "Medium") ++
        l.filter (fun v => v.risk == some "Low") ++
        l.filter (fun v => v.risk == some "Informational") ∧
      (prioritizeVulnerabilities l).Pairwise
        (fun a b => specSeverityWeight b.risk ≤ specSeverityWeight a.risk) := by
  have hfid : prioritizeVulnerabilities l =
      l.filter (fun v => v.risk == some "High") ++
        l.filter (fun v => v.risk == some "Medium") ++
        l.filter (fun v => v.risk == some "Low") ++
        l.filter (fun v => v.risk == some "Informational") := by
    rw [prioritizeVulnerabilities_buckets]
    have h4 : wFilter 4 l = l.filter (fun v => v.risk == some "High") := by
      refine List.filter_congr ?_
      intro v hv
      rcases h v hv with hv | hv | hv | hv <;> rw [hv] <;> decide
    have h3 : wFilter 3 l = l.filter (fun v => v.risk == some "Medium") := by
      refine List.filter_congr ?_
      intro v hv
      rcases h v hv with hv | hv | hv | hv <;> rw [hv] <;> decide
    have h2 : wFilter 2 l = l.filter (fun v => v.risk == some "Low") := by
      refine List.filter_congr ?_
      intro v hv
      rcases h v hv with hv | hv | hv | hv <;> rw [hv] <;> decide
    have h1 : wFilter 1 l = l.filter (fun v => v.risk == some "Informational") := by
      refine List.filter_congr ?_
      intro v hv
      rcases h v hv with hv | hv | hv | hv <;> rw [hv] <;> decide
    have h0 : wFilter 0 l = [] := by
      refine List.filter_eq_nil_iff.mpr ?_
      intro v hv
      rcases h v hv with hv | hv | hv | hv <;> rw [hv] <;> decide
    rw [h4, h3, h2, h1, h0, List.append_nil]
  refine ⟨hfid, ?_⟩
  rw [hfid]
  have m4 : ∀ a ∈ l.filter (fun v => v.risk == some "High"),
      specSeverityWeight a.risk = 4 := by
    intro a ha
    have := (List.mem_filter.mp ha).2
    simp only [beq_iff_eq] at this
    rw [this]; rfl
  have m3 : ∀ a ∈ l.filter (fun v => v.risk == some "Medium"),
      specSeverityWeight a.risk = 3 := by
    intro a ha
    have := (List.mem_filter.mp ha).2
    simp only [beq_iff_eq] at this
    rw [this]; rfl
  have m2 : ∀ a ∈ l.filter (fun v => v.risk == some "Low"),
      specSeverityWeight a.risk = 2 := by
    intro a ha
    have := (List.mem_filter.mp ha).2
    simp only [beq_iff_eq] at this
    rw [this]; rfl
  have m1 : ∀ a ∈ l.filter (fun v => v.risk == some "Informational"),
      specSeverityWeight a.risk = 1 := by
    intro a ha
    have := (List.mem_filter.mp ha).2
    simp only [beq_iff_eq] at this
    rw [this]; rfl
  have pwConst : ∀ (L : List Vuln) (k : Nat),
      (∀ a ∈ L, specSeverityWeight a.risk = k) →
      L.Pairwise (fun a b => specSeverityWeight b.risk ≤ specSeverityWeight a.risk) := by
    intro L k hL
    exact List.pairwise_of_forall_mem_list fun a ha b hb => by
      rw [hL a ha, hL b hb]
  refine List.pairwise_append.mpr ⟨List.pairwise_append.mpr
    ⟨List.pairwise_append.mpr ⟨pwConst _ 4 m4, pwConst _ 3 m3, ?_⟩,
      pwConst _ 2 m2, ?_⟩, pwConst _ 1 m1, ?_⟩
  · intro a ha b hb
    rw [m4 a ha, m3 b hb]; omega
  · intro a ha b hb
    rcases List.mem_append.mp ha with ha | ha
    · rw [m4 a ha, m2 b hb]; omega
    · rw [m3 a ha, m2 b hb]; omega
  · intro a ha b hb
    rcases List.mem_append.mp ha with ha | ha
    · rcases List.mem_append.mp ha with ha | ha
      · rw [m4 a ha, m1 b hb]; omega
      · rw [m3 a ha, m1 b hb]; omega
    · rw [m2 a ha, m1 b hb]; omega

/-- Input for evaluating the prioritization claims: severities
[Low, High, High, Medium], the spec's own P1 example. -/
def demoFindings : List Vuln :=
  [mkVuln "a" (some "Low"), mkVuln "b" (some "High"),
   mkVuln "c" (some "High"), mkVuln "d" (some "Medium")]

/-- Witness for C2: the theorem applied to the concrete P1 example list. -/
theorem prioritizeVulnerabilities_sorted_stable_witness :
    (∀ v ∈ demoFindings, v.risk = some "High" ∨ v.risk = some "Medium" ∨
      v.risk = some "Low" ∨ v.risk = some "Informational") ∧
    (prioritizeVulnerabilities demoFindings =
      demoFindings.filter (fun v => v.risk == some "High") ++
        demoFindings.filter (fun v => v.risk == some "Medium") ++
        demoFindings.filter (fun v => v.risk == some "Low") ++
        demoFindings.filter (fun v => v.risk == some "Informational") ∧
      (prioritizeVulnerabilities demoFindings).Pairwise
        (fun a b => specSeverityWeight b.risk ≤ specSeverityWeight a.risk)) :=
  ⟨by decide, prioritizeVulnerabilities_sorted_stable demoFindings (by decide)⟩

/-- Claim C3 counterexample: `Array.prototype.sort` sorts the caller's array
in place, so after `prioritizeVulnerabilities([low, high])` the argument
array holds [high, low] — the input list is *not* left in its original
order. -/
theorem prioritizeVulnerabilities_mutates_counterexample :
    prioritizeVulnerabilities [mkVuln "a" (some "Low"), mkVuln "b" (some "High")] =
      [mkVuln "b" (some "High"), mkVuln "a" (some "Low")] ∧
    prioritizeVulnerabilities [mkVuln "a" (some "Low"), mkVuln "b" (some "High")] ≠
      [mkVuln "a" (some "Low"), mkVuln "b" (some "High")] := by decide

/-- Claim C3 (amended): the prioritization is a deterministic function of the
input that preserves the input's elements (a permutation — no finding is
added, dropped or modified), but it reorders the caller's array in place, so
the list observed after the call is the prioritized order rather than the
original one. -/
theorem prioritizeVulnerabilities_perm (l : List Vuln) :
    (prioritizeVulnerabilities l).Perm l :=
  jsStableSort_perm vulnCompare l

/-! ## Numeric extraction (`AIAnalyzer.extractNumericValue`)

Source (`src/ai-analyzer.js` lines 753-758):

```js
extractNumericValue(text) {
  if (!text) return 0;
  const match = text.match(/(\d+(?:\.\d+)?)/);
  return match ? parseFloat(match[1]) : 0;
}
```

The regex takes the first maximal digit run, optionally followed by a dot and
at least one more digit. We split the scan (pure character data, kernel
computable) from the conversion to a number. -/

/-- Value of a digit run, most significant first. -/
def digitsVal (ds : List Char) : Nat :=
  ds.foldl (fun n c => n * 10 + (c.toNat - 48)) 0

/-- First match of `\d+(?:\.\d+)?`: the integer digit run and the (possibly
empty) fraction digit run. `none` when the text has no digit at all. -/
def firstNumberParts : List Char → Option (List Char × List Char)
  | [] => none
  | c :: cs =>
    if c.isDigit then
      let ds := cs.takeWhile Char.isDigit
      let rest := cs.dropWhile Char.isDigit
      match rest with
      | '.' :: r2 =>
        let fs := r2.takeWhile Char.isDigit
        if fs.isEmpty then some (c :: ds, []) else some (c :: ds, fs)
      | _ => some (c :: ds, [])
    else firstNumberParts cs

/-- `parseFloat` of the matched token (exact, since we model JS numbers
as `ℚ`). -/
def ratOfParts : List Char × List Char → ℚ
  | (is, fs) => (digitsVal is : ℚ) + (digitsVal fs : ℚ) / ((10 : ℚ) ^ fs.length)

/-- `AIAnalyzer.extractNumericValue`. The `if (!text) return 0` guard for an
empty string coincides with the no-digit case of the scan. -/
def extractNumericValue (text : String) : ℚ :=
  match firstNumberParts text.data with
  | some p => ratOfParts p
  | none => 0

example : firstNumberParts "Risk score: 9.2 out of 10".data =
    some (['9'], ['2']) := by decide
example : firstNumberParts "no digits here".data = none := by decide
example : extractNumericValue "7.5" = 15 / 2 := by
  have h : firstNumberParts "7.5".data = some (['7'], ['5']) := by decide
  have h7 : '7'.toNat - 48 = 7 := by decide
  have h5 : '5'.toNat - 48 = 5 := by decide
  rw [extractNumericValue, h]
  norm_num [ratOfParts, digitsVal, h7, h5]

/-! ## Risk scoring (`AIAnalyzer.calculateRiskScore`)

Source (`src/ai-analyzer.js` lines 664-710). The surrounding try/catch is
omitted from the model: no statement of the body can throw. -/

/-- `Math.round(x)` for the nonnegative values arising here:
round half towards positive infinity, i.e. `⌊x + 1/2⌋`. -/
def jsRound (q : ℚ) : ℚ := ((⌊q + 1/2⌋ : ℤ) : ℚ)

/-- The `switch (vuln.risk?.toLowerCase())` of `calculateRiskScore`:
`default: 3`, which is also taken when `risk` is absent (the switch then
runs on `undefined`). -/
def baseRiskScore (risk : Option String) : ℚ :=
  match risk with
  | none => 3
  | some s =>
    match jsToLower s with
    | "high" => 8
    | "medium" => 5
    | "low" => 2
    | "informational" => 1
    | _ => 3

/-- The body of the `forEach` in `calculateRiskScore`: the base score from
the ZAP risk level, then averaged with the AI business risk score when that
field is truthy (a non-empty string) and its extracted value lies in
`(0, 10]` (`aiScore > 0 && aiScore <= 10`). -/
def vulnScore (v : Vuln) : ℚ :=
  let base := baseRiskScore v.risk
  match v.aiAnalysis with
  | none => base
  | some a =>
    if a.businessRiskScore ≠ "" then
      let aiScore := extractNumericValue a.businessRiskScore
      if 0 < aiScore ∧ aiScore ≤ 10 then (base + aiScore) / 2 else base
    else base

/-- `AIAnalyzer.calculateRiskScore`: sum the per-finding scores, divide by
the count, round to one decimal place; `0` for no findings. -/
def calculateRiskScore (vulnerabilities : List Vuln) : ℚ :=
  if vulnerabilities.isEmpty then 0
  else
    let totalScore := vulnerabilities.foldl (fun acc v => acc + vulnScore v) 0
    let scoredCount := vulnerabilities.length
    let averageScore : ℚ :=
      if 0 < scoredCount then totalScore / scoredCount else 0
    jsRound (averageScore * 10) / 10

theorem foldl_add_vulnScore (l : List Vuln) (a : ℚ) :
    l.foldl (fun acc v => acc + vulnScore v) a = a + (l.map vulnScore).sum := by
  induction l generalizing a with
  | nil => simp
  | cons v vs ih => simp [ih (a + vulnScore v)]; ring

theorem baseRiskScore_pos (r : Option String) : 1 ≤ baseRiskScore r := by
  unfold baseRiskScore
  rcases r with _ | s
  · norm_num
  · dsimp only; split <;> norm_num

theorem baseRiskScore_le_eight (r : Option String) : baseRiskScore r ≤ 8 := by
  unfold baseRiskScore
  rcases r with _ | s
  · norm_num
  · dsimp only; split <;> norm_num

theorem vulnScore_nonneg (v : Vuln) : 0 ≤ vulnScore v := by
  unfold vulnScore
  have hbase := baseRiskScore_pos v.risk
  rcases v.aiAnalysis with _ | a
  · dsimp only; linarith
  · dsimp only
    split
    · split
      · next hvalid => rcases hvalid with ⟨h0, _⟩; positivity
      · linarith
    · linarith

theorem vulnScore_le_nine (v : Vuln) : vulnScore v ≤ 9 := by
  unfold vulnScore
  have hbase := baseRiskScore_le_eight v.risk
  rcases v.aiAnalysis with _ | a
  · dsimp only; linarith
  · dsimp only
    split
    · split
      · next hvalid => rcases hvalid with ⟨_, h10⟩; linarith
      · linarith
    · linarith

/-- Claim C6: the overall risk score is `0` for an empty finding list, and
lies in `[0, 10]` for every finding list — whatever the severity strings and
whatever text the enrichment risk-score fields hold. -/
theorem calculateRiskScore_bounds :
    calculateRiskScore [] = 0 ∧
    ∀ l : List Vuln, 0 ≤ calculateRiskScore l ∧ calculateRiskScore l ≤ 10 := by
  refine ⟨rfl, ?_⟩
  intro l
  unfold calculateRiskScore
  rcases l with _ | ⟨v, vs⟩
  · norm_num
  · set l := v :: vs with hl
    have hne : l.isEmpty = false := by simp [hl]
    have hlen : (0:ℚ) < l.length := by simp [hl]; positivity
    rw [hne]
    simp only [Bool.false_eq_true, if_false, foldl_add_vulnScore, zero_add]
    have hpos : 0 < l.length := by simp [hl]
    rw [if_pos hpos]
    have hsum0 : 0 ≤ (l.map vulnScore).sum :=
      List.sum_nonneg (by
        intro x hx
        rcases List.mem_map.mp hx with ⟨w, _, hw⟩
        rw [← hw]; exact vulnScore_nonneg w)
    have hsum9 : (l.map vulnScore).sum ≤ 9 * l.length := by
      have := List.sum_le_card_nsmul (l.map vulnScore) 9 (by
        intro x hx
        rcases List.mem_map.mp hx with ⟨w, _, hw⟩
        rw [← hw]; exact vulnScore_le_nine w)
      simpa [mul_comm, nsmul_eq_mul] using this
    have havg0 : 0 ≤ (l.map vulnScore).sum / (l.length : ℚ) :=
      div_nonneg hsum0 (le_of_lt hlen)
    have havg9 : (l.map vulnScore).sum / (l.length : ℚ) ≤ 9 :=
      (div_le_iff₀ hlen).mpr (by linarith)
    constructor
    · unfold jsRound
      have : (0:ℤ) ≤ ⌊(l.map vulnScore).sum / (l.length:ℚ) * 10 + 1/2⌋ :=
        Int.le_floor.mpr (by push_cast; nlinarith)
      have hcast : (0:ℚ) ≤ (⌊(l.map vulnScore).sum / (l.length:ℚ) * 10 + 1/2⌋ : ℤ) := by
        exact_mod_cast this
      positivity
    · unfold jsRound
      have hfl : ⌊(l.map vulnScore).sum / (l.length:ℚ) * 10 + 1/2⌋ ≤ 90 := by
        have : (l.map vulnScore).sum / (l.length:ℚ) * 10 + 1/2 ≤ 90 + 1/2 := by
          nlinarith
        calc ⌊(l.map vulnScore).sum / (l.length:ℚ) * 10 + 1/2⌋
            ≤ ⌊(90:ℚ) + 1/2⌋ := Int.floor_mono this
          _ = 90 := by norm_num
      have hcast : ((⌊(l.map vulnScore).sum / (l.length:ℚ) * 10 + 1/2⌋ : ℤ) : ℚ) ≤ 90 := by
        exact_mod_cast hfl
      linarith

/-! ## Claims C5, C6, C9: the risk-score computation -/

/-- Base severity scores exactly as claim C5 states them (High 8, Medium 5,
Low 2, Informational 1). Spec-side definition for the refinement
comparison. -/
def specBaseScore : Option String → ℚ
  | some "High" => 8
  | some "Medium" => 5
  | some "Low" => 2
  | some "Informational" => 1
  | _ => 0

/-- Per-finding score following claim C5's words, with the claimed validity
range `0.0 – 10.0` read as the closed interval `[0, 10]`. Spec-side
definition. -/
def specPerFindingScore (v : Vuln) : ℚ :=
  match v.aiAnalysis with
  | none => specBaseScore v.risk
  | some a =>
    let r := extractNumericValue a.businessRiskScore
    if 0 ≤ r ∧ r ≤ 10 then (specBaseScore v.risk + r) / 2
    else specBaseScore v.risk

/-- Overall score following claim C5's words with the closed validity
interval: mean of the per-finding scores, rounded to one decimal place,
`0` for no findings. Spec-side definition. -/
def specOverallRiskScore (l : List Vuln) : ℚ :=
  if l.isEmpty then 0
  else jsRound ((l.map specPerFindingScore).sum / l.length * 10) / 10

/-- Per-finding score with the amended validity range: the code only
averages when the extracted score lies in the half-open interval
`(0, 10]`. -/
def specPerFindingScoreAmended (v : Vuln) : ℚ :=
  match v.aiAnalysis with
  | none => specBaseScore v.risk
  | some a =>
    let r := extractNumericValue a.businessRiskScore
    if 0 < r ∧ r ≤ 10 then (specBaseScore v.risk + r) / 2
    else specBaseScore v.risk

/-- Overall score with the amended validity range `(0, 10]`. -/
def specOverallRiskScoreAmended (l : List Vuln) : ℚ :=
  if l.isEmpty then 0
  else jsRound ((l.map specPerFindingScoreAmended).sum / l.length * 10) / 10

/-- A High finding whose enrichment carries the risk-score text "0":
the point where the claimed validity range `[0, 10]` and the code's
`(0, 10]` disagree. -/
def zeroScoreFinding : Vuln :=
  ⟨"SQL Injection", some "High", "", "", "", "", "", "",
    some ⟨"", "", "", "", "", "", "0", "BUSINESS RISK SCORE: 0", ""⟩⟩

theorem extractNumericValue_zero : extractNumericValue "0" = 0 := by
  have h : firstNumberParts "0".data = some (['0'], []) := by decide
  have h0 : '0'.toNat - 48 = 0 := by decide
  rw [extractNumericValue, h]
  norm_num [ratOfParts, digitsVal, h0]

theorem extractNumericValue_empty : extractNumericValue "" = 0 := rfl

/-- Claim C5 counterexample: on a High finding with enrichment risk score
`0` — inside the claimed valid range `[0, 10]` — the code keeps the base
score 8, while the claim's computation averages down to 4. -/
theorem calculateRiskScore_range_counterexample :
    calculateRiskScore [zeroScoreFinding] = 8 ∧
    specOverallRiskScore [zeroScoreFinding] = 4 ∧
    calculateRiskScore [zeroScoreFinding] ≠ specOverallRiskScore [zeroScoreFinding] := by
  have hne : ("0" : String) ≠ "" := by decide
  have hscore : vulnScore zeroScoreFinding = 8 := by
    have hb : baseRiskScore (some "High") = 8 := rfl
    simp [vulnScore, zeroScoreFinding, extractNumericValue_zero, hb, hne]
  have hspecScore : specPerFindingScore zeroScoreFinding = 4 := by
    have hb : specBaseScore (some "High") = 8 := rfl
    simp [specPerFindingScore, zeroScoreFinding, extractNumericValue_zero, hb]
    norm_num
  have h1 : calculateRiskScore [zeroScoreFinding] = 8 := by
    simp only [calculateRiskScore, List.isEmpty_cons, List.foldl, List.length_cons,
      List.length_nil, zero_add, hscore]
    norm_num [jsRound]
  have h2 : specOverallRiskScore [zeroScoreFinding] = 4 := by
    simp only [specOverallRiskScore, List.isEmpty_cons, List.map, List.sum_cons,
      List.sum_nil, List.length_cons, List.length_nil, hspecScore]
    norm_num [jsRound]
  exact ⟨h1, h2, by rw [h1, h2]; norm_num⟩

/-- Claim C5 (amended): for findings carrying the four enum severities, the
code's overall risk score is the claimed computation with the validity range
amended from `[0, 10]` to `(0, 10]` — an enrichment score extracted as `0`
(including unparsable text) leaves the base score unaveraged. -/
theorem calculateRiskScore_eq_specAmended (l : List Vuln)
    (h : ∀ v ∈ l, v.risk = some "High" ∨ v.risk = some "Medium" ∨
      v.risk = some "Low" ∨ v.risk = some "Informational") :
    calculateRiskScore l = specOverallRiskScoreAmended l := by
  have hpt : ∀ v ∈ l, vulnScore v = specPerFindingScoreAmended v := by
    intro v hv
    have hbase : baseRiskScore v.risk = specBaseScore v.risk := by
      rcases h v hv with hr | hr | hr | hr <;> rw [hr] <;> rfl
    unfold vulnScore specPerFindingScoreAmended
    rw [hbase]
    rcases v.aiAnalysis with _ | a
    · rfl
    · dsimp only
      by_cases hbrs : a.businessRiskScore = ""
      · rw [hbrs]
        simp [extractNumericValue_empty]
      · simp [hbrs]
  unfold calculateRiskScore specOverallRiskScoreAmended
  rcases l with _ | ⟨v, vs⟩
  · rfl
  · have hmap : (v :: vs).map vulnScore = (v :: vs).map specPerFindingScoreAmended :=
      List.map_congr_left hpt
    simp only [List.isEmpty_cons, Bool.false_eq_true, if_false,
      foldl_add_vulnScore, zero_add]
    rw [if_pos (by simp), hmap]

/-- Inputs with enum severities for evaluating the score claims: the
boundary finding plus an unenriched Low finding. -/
def demoScored : List Vuln := [zeroScoreFinding, mkVuln "x" (some "Low")]

/-- Witness for the amended C5: the theorem applied at `demoScored`. -/
theorem calculateRiskScore_eq_specAmended_witness :
    (∀ v ∈ demoScored, v.risk = some "High" ∨ v.risk = some "Medium" ∨
      v.risk = some "Low" ∨ v.risk = some "Informational") ∧
    calculateRiskScore demoScored = specOverallRiskScoreAmended demoScored :=
  ⟨by decide, calculateRiskScore_eq_specAmended demoScored (by decide)⟩

/-- Claim C9 counterexample: an unknown severity string is *not* treated
like Informational — prioritization gives it weight 0 (Informational has 1)
and risk scoring gives it base score 3 (Informational has 1). -/
theorem severityNormalization_counterexample :
    riskWeight (some "Unknown") = 0 ∧ riskWeight (some "Informational") = 1 ∧
    baseRiskScore (some "Unknown") = 3 ∧ baseRiskScore (some "Informational") = 1 ∧
    calculateRiskScore [mkVuln "u" (some "Unknown")] ≠
      calculateRiskScore [mkVuln "i" (some "Informational")] := by
  have hu : calculateRiskScore [mkVuln "u" (some "Unknown")] = 3 := by
    have hs : vulnScore (mkVuln "u" (some "Unknown")) = 3 := rfl
    simp only [calculateRiskScore, List.isEmpty_cons, List.foldl, List.length_cons,
      List.length_nil, zero_add, hs]
    norm_num [jsRound]
  have hi : calculateRiskScore [mkVuln "i" (some "Informational")] = 1 := by
    have hs : vulnScore (mkVuln "i" (some "Informational")) = 1 := rfl
    simp only [calculateRiskScore, List.isEmpty_cons, List.foldl, List.length_cons,
      List.length_nil, zero_add, hs]
    norm_num [jsRound]
  refine ⟨rfl, rfl, rfl, rfl, ?_⟩
  rw [hu, hi]; norm_num

/-- Claim C9 (amended): severity strings are matched case-insensitively
against the four enum values; a severity that is missing or matches none of
them is *not* normalized to Informational: it gets prioritization weight 0
(below Informational's 1) and base risk score 3 (between Low's 2 and
Medium's 5). -/
theorem severityNormalization_amended (r : Option String)
    (h : r = none ∨ ∃ s, r = some s ∧ jsToLower s ≠ "high" ∧
      jsToLower s ≠ "medium" ∧ jsToLower s ≠ "low" ∧
      jsToLower s ≠ "informational") :
    riskWeight r = 0 ∧ baseRiskScore r = 3 := by
  rcases h with hr | ⟨s, hr, h1, h2, h3, h4⟩
  · rw [hr]; exact ⟨rfl, rfl⟩
  · rw [hr]
    unfold riskWeight baseRiskScore
    constructor <;> · dsimp only; split <;> simp_all

/-- Witness for the amended C9: the severity string "Unknown". -/
theorem severityNormalization_amended_witness :
    ((some "Unknown" : Option String) = none ∨ ∃ s, (some "Unknown" : Option String) = some s ∧
      jsToLower s ≠ "high" ∧ jsToLower s ≠ "medium" ∧ jsToLower s ≠ "low" ∧
      jsToLower s ≠ "informational") ∧
    (riskWeight (some "Unknown") = 0 ∧ baseRiskScore (some "Unknown") = 3) :=
  ⟨Or.inr ⟨"Unknown", rfl, by decide, by decide, by decide, by decide⟩,
    severityNormalization_amended (some "Unknown")
      (Or.inr ⟨"Unknown", rfl, by decide, by decide, by decide, by decide⟩)⟩

/-! ## Section extraction (`AIAnalyzer.extractSection`)

Source (`src/ai-analyzer.js` lines 741-751):

```js
extractSection(text, sectionName) {
  if (!text || !sectionName) return '';
  try {
    const regex = new RegExp(`${sectionName}:?\\s*([\\s\\S]*?)(?=\\n\\d+\\.|\\n[A-Z\\s]+:|$)`, 'i');
    const match = text.match(regex);
    return match ? match[1].trim() : '';
  } catch (error) { return ''; }
}
```

The regex semantics, spelled out: find the leftmost case-insensitive
occurrence of the section name; consume one following `:` if present, then
the maximal whitespace run; the lazy capture then extends to the first
position where a terminator starts — a newline followed by digits and a
dot, or a newline followed by letters/whitespace (the `i` flag makes
`[A-Z\s]` match lower case too) and a colon — or to the end of the text.
The result is trimmed. The `try` never fires for the fixed section names
used by the analyzer (they are valid regex bodies). Whitespace is modelled
as the ASCII whitespace characters. -/

/-- `\s` (ASCII part). -/
def isWsChar (c : Char) : Bool :=
  c == ' ' || c == '\t' || c == '\n' || c == '\r' || c == '\x0b' || c == '\x0c'

/-- One character of the `[A-Z\s]` class under the `i` flag. -/
def isCapsClassChar (c : Char) : Bool :=
  c.isAlpha || isWsChar c

/-- Does a terminator (`\n\d+\.` or `\n[A-Z\s]+:`) start at this position?
Both classes exclude the closing character, so backtracking inside the
`+` cannot create a match the maximal run misses. -/
def isTermAt (cs : List Char) : Bool :=
  match cs with
  | '\n' :: rest =>
    (!(rest.takeWhile Char.isDigit).isEmpty &&
      (match rest.dropWhile Char.isDigit with
        | '.' :: _ => true
        | _ => false)) ||
    (!(rest.takeWhile isCapsClassChar).isEmpty &&
      (match rest.dropWhile isCapsClassChar with
        | ':' :: _ => true
        | _ => false))
  | _ => false

/-- The lazy capture `([\s\S]*?)` up to the first terminator or the end. -/
def captureUpTo : List Char → List Char
  | [] => []
  | c :: cs => if isTermAt (c :: cs) then [] else c :: captureUpTo cs

/-- Case-insensitive prefix test. -/
def startsWithCI : List Char → List Char → Bool
  | [], _ => true
  | _ :: _, [] => false
  | p :: ps, c :: cs => (p.toLower == c.toLower) && startsWithCI ps cs

/-- Leftmost case-insensitive occurrence of `pat`; returns the text after
it. -/
def findRestCI (pat : List Char) : List Char → Option (List Char)
  | [] => if startsWithCI pat [] then some [] else none
  | c :: cs =>
    if startsWithCI pat (c :: cs) then some ((c :: cs).drop pat.length)
    else findRestCI pat cs

/-- `String.trim` of JS: strip whitespace from both ends. -/
def trimChars (cs : List Char) : List Char :=
  ((cs.dropWhile isWsChar).reverse.dropWhile isWsChar).reverse

/-- `AIAnalyzer.extractSection`. -/
def extractSection (text sectionName : String) : String :=
  if text = "" ∨ sectionName = "" then ""
  else
    match findRestCI sectionName.data text.data with
    | none => ""
    | some rest =>
      let rest1 := match rest with
        | ':' :: r => r
        | r => r
      let rest2 := rest1.dropWhile isWsChar
      String.mk (trimChars (captureUpTo rest2))

example : extractSection "BUSINESS RISK SCORE: 7.5" "BUSINESS RISK SCORE" =
    "7.5" := by decide
example : extractSection "BUSINESS RISK SCORE: 7.5" "BUSINESS IMPACT" =
    "" := by decide
example : extractSection "1. BUSINESS IMPACT: bad\n2. TECHNICAL SEVERITY: High"
    "BUSINESS IMPACT" = "bad" := by decide

/-! ## The enrichment client (`AIAnalyzer.makeAIRequest`,
`AIAnalyzer.analyzeVulnerability`)

Source: `src/ai-analyzer.js` lines 233-270 and 354-387. The provider call
(`client.chat.completions.create` for OpenAI/GROQ, `axios.post` for Ollama)
is the external collaborator; its behaviour is a parameter. Prompt assembly
(`loadPromptTemplate` and the `{{vulnerability}}` substitution) affects only
the text sent to the provider, never the control flow, and is elided;
`new Date().toISOString()` is the explicit `now` parameter. -/

/-- The behaviours of one provider call: the SDK throws (network error,
connection refused, timeout, HTTP 429 rate-limit rejection, ...), or it
resolves with a response whose `choices[0]?.message?.content` is missing
(malformed) or is some text (possibly empty, possibly without any of the
expected sections). -/
inductive ProviderBehaviour where
  | throws (msg : String)
  | timeout
  | rateLimited
  | malformed
  | success (text : String)
deriving DecidableEq, Repr

/-- The awaited provider call: a thrown error, or the optional content. -/
def providerResult : ProviderBehaviour → Except String (Option String)
  | .throws msg => .error msg
  | .timeout => .error "Request timed out"
  | .rateLimited => .error "429 rate limit exceeded"
  | .malformed => .ok none
  | .success t => .ok (some t)

/-- `AIAnalyzer.makeAIRequest`: `null` when disabled; otherwise the provider
content with `|| null` (an empty string is falsy), and `null` from the
`catch` on any provider error. The outer `Except` is the function's own
outcome towards its caller: it is `.ok` in every case. -/
def makeAIRequest (isEnabled : Bool) (pb : ProviderBehaviour) :
    Except String (Option String) :=
  if !isEnabled then .ok none
  else
    match providerResult pb with
    | .error _ => .ok none
    | .ok none => .ok none
    | .ok (some t) => .ok (if t = "" then none else some t)

/-- `AIAnalyzer.analyzeVulnerability`: when the request yields text, attach
the parsed `aiAnalysis`; when it yields `null`, return the vulnerability
unchanged; the surrounding try/catch also returns it unchanged on any
thrown error. -/
def analyzeVulnerability (isEnabled : Bool) (pb : ProviderBehaviour)
    (now : String) (vulnerability : Vuln) : Except String Vuln :=
  if !isEnabled then .ok vulnerability
  else
    match makeAIRequest isEnabled pb with
    | .error _ => .ok vulnerability
    | .ok none => .ok vulnerability
    | .ok (some analysis) =>
      .ok { vulnerability with aiAnalysis := some {
        businessImpact := extractSection analysis "BUSINESS IMPACT"
        technicalSeverity := extractSection analysis "TECHNICAL SEVERITY"
        exploitationLikelihood := extractSection analysis "EXPLOITATION LIKELIHOOD"
        falsePositiveScore := extractSection analysis "FALSE POSITIVE ASSESSMENT"
        remediationSteps := extractSection analysis "REMEDIATION STEPS"
        codeExamples := extractSection analysis "CODE EXAMPLES"
        businessRiskScore := extractSection analysis "BUSINESS RISK SCORE"
        fullAnalysis := analysis
        analyzedAt := now } }

/-- A provider behaviour that counts as a failure for claim C4: anything
but a response with non-empty content. -/
def providerFailed : ProviderBehaviour → Bool
  | .success t => t == ""
  | _ => true

/-- Claim C4: for every finding and every provider behaviour (throwing,
timing out, rate-limit rejection, malformed or empty response, arbitrary
text), the per-finding enrichment never raises to its caller — the result
is always `.ok` — and on any provider failure the finding comes back
unchanged, with no enrichment attached. -/
theorem analyzeVulnerability_total (isEnabled : Bool) (pb : ProviderBehaviour)
    (now : String) (v : Vuln) :
    (∃ v2, analyzeVulnerability isEnabled pb now v = .ok v2) ∧
    (providerFailed pb = true →
      analyzeVulnerability isEnabled pb now v = .ok v) := by
  rcases pb with msg | _ | _ | _ | t <;> cases isEnabled <;>
    simp [analyzeVulnerability, makeAIRequest, providerResult, providerFailed]
  by_cases ht : t = "" <;> simp [ht]

/-- Witness for C4: a timing-out provider and a concrete finding. -/
theorem analyzeVulnerability_total_witness :
    (∃ v2, analyzeVulnerability true ProviderBehaviour.timeout "2024-01-01"
      (mkVuln "XSS" (some "Medium")) = .ok v2) ∧
    (providerFailed ProviderBehaviour.timeout = true →
      analyzeVulnerability true ProviderBehaviour.timeout "2024-01-01"
        (mkVuln "XSS" (some "Medium")) = .ok (mkVuln "XSS" (some "Medium"))) :=
  analyzeVulnerability_total true ProviderBehaviour.timeout "2024-01-01"
    (mkVuln "XSS" (some "Medium"))

/-! ## Budgeted bulk analysis (`AIAnalyzer.analyzeVulnerabilities`)

Source (`src/ai-analyzer.js` lines 411-465):

```js
const prioritized = this.prioritizeVulnerabilities(vulnerabilities);
const batchSize = config.ai.rateLimits.batchSize;
const maxAnalyze = Math.min(prioritized.length, config.ai.rateLimits.maxVulnerabilities);
const toAnalyze = prioritized.slice(0, maxAnalyze);
const analyzedVulnerabilities = [];
for (let i = 0; i < toAnalyze.length; i += batchSize) {
  const batch = toAnalyze.slice(i, i + batchSize);
  for (const vulnerability of batch) {
    try { analyzedVulnerabilities.push(await this.analyzeVulnerability(vulnerability)); ... }
    catch { analyzedVulnerabilities.push(vulnerability); }
  }
  ...
}
const remaining = vulnerabilities.slice(maxAnalyze);
analyzedVulnerabilities.push(...remaining);
```

Two points matter. First, `sort` mutated the caller's array in place, so
`vulnerabilities` and `prioritized` are the same array and
`vulnerabilities.slice(maxAnalyze)` is the *prioritized* tail. Second, the
outer loop advances by `i += batchSize`: with `batchSize ≤ 0` the index
never reaches `toAnalyze.length` and the loop does not terminate. The loop
is therefore modelled with an iteration bound (`fuel`); `none` means the
bound was hit, and for a batch size of zero no finite bound completes the
loop. The `setTimeout` delays between requests and batches only affect
timing and are elided. -/

/-- One selected finding inside the batch loop: `analyzeVulnerability`, with
the per-finding try/catch pushing the unanalyzed version on a thrown
error. -/
def analyzeOne (isEnabled : Bool) (provider : Vuln → ProviderBehaviour)
    (now : String) (v : Vuln) : Vuln :=
  match analyzeVulnerability isEnabled (provider v) now v with
  | .ok v2 => v2
  | .error _ => v

/-- The outer batch loop, with `fuel` bounding the number of iterations.
`(toAnalyze.take (i + batchSize)).drop i` is `toAnalyze.slice(i, i + batchSize)`
for the indices that occur (`i`, `batchSize` natural). -/
def processBatchesFuel (analyze : Vuln → Vuln) (toAnalyze : List Vuln)
    (batchSize : Nat) : Nat → Nat → List Vuln → Option (List Vuln)
  | 0, _, _ => none
  | fuel + 1, i, acc =>
    if i < toAnalyze.length then
      processBatchesFuel analyze toAnalyze batchSize fuel (i + batchSize)
        (acc ++ ((toAnalyze.take (i + batchSize)).drop i).map analyze)
    else some acc

/-- For every positive batch size the loop completes within
`length + 1` iterations and analyzes exactly the selected findings in
order. -/
theorem processBatchesFuel_complete (analyze : Vuln → Vuln) (l : List Vuln)
    (bs : Nat) (hbs : 0 < bs) :
    ∀ (fuel i : Nat) (acc : List Vuln), l.length - i < fuel →
      processBatchesFuel analyze l bs fuel i acc =
        some (acc ++ ((l.drop i).map analyze)) := by
  intro fuel
  induction fuel with
  | zero => intro i acc h; omega
  | succ fuel ih =>
      intro i acc h
      unfold processBatchesFuel
      by_cases hi : i < l.length
      · rw [if_pos hi, ih (i + bs) _ (by omega)]
        have h1 : (l.take (i + bs)).drop i = (l.drop i).take bs := by
          rw [List.drop_take]
          congr 1
          omega
        have h2 : l.drop (i + bs) = (l.drop i).drop bs := by
          rw [List.drop_drop, Nat.add_comm]
        rw [h1, h2, List.append_assoc, ← List.map_append, List.take_append_drop]
      · rw [if_neg hi]
        have hnil : l.drop i = [] := List.drop_eq_nil_of_le (by omega)
        simp [hnil]

/-- With batch size `0` the loop index never advances: no finite iteration
bound completes the loop — the JS `for` loop runs forever. -/
theorem processBatchesFuel_zero_stuck (analyze : Vuln → Vuln) (l : List Vuln) :
    ∀ (fuel i : Nat) (acc : List Vuln), i < l.length →
      processBatchesFuel analyze l 0 fuel i acc = none := by
  intro fuel
  induction fuel with
  | zero => intro i acc _; rfl
  | succ fuel ih =>
      intro i acc hi
      unfold processBatchesFuel
      rw [if_pos hi]
      have hb : (l.take (i + 0)).drop i = [] := by
        rw [List.drop_take]
        simp
      rw [hb]
      simp only [Nat.add_zero, List.map_nil, List.append_nil]
      exact ih i acc hi

/-- `AIAnalyzer.analyzeVulnerabilities`. The fuel `toAnalyze.length + 1`
suffices for every positive batch size (`processBatchesFuel_complete`);
`none` is the model of the non-terminating loop. -/
def analyzeVulnerabilities (isEnabled : Bool) (provider : Vuln → ProviderBehaviour)
    (now : String) (batchSize maxVulnerabilities : Nat)
    (vulnerabilities : List Vuln) : Option (List Vuln) :=
  if !isEnabled || vulnerabilities.isEmpty then some vulnerabilities
  else
    let prioritized := prioritizeVulnerabilities vulnerabilities
    let maxAnalyze := min prioritized.length maxVulnerabilities
    let toAnalyze := prioritized.take maxAnalyze
    match processBatchesFuel (analyzeOne isEnabled provider now) toAnalyze
        batchSize (toAnalyze.length + 1) 0 [] with
    | none => none
    | some analyzed => some (analyzed ++ prioritized.drop maxAnalyze)

/-- Claim C7: with analysis enabled and a positive batch size, the first
`min(len(findings), maxFindings)` prioritized findings are the selected
set — each passed through the per-finding analyzer — and the remainder is
appended unmodified; `len(selected) = min(len, maxFindings)` and
`len(selected) + len(deferred) = len(findings)`. -/
theorem analyzeVulnerabilities_budget (provider : Vuln → ProviderBehaviour)
    (now : String) (batchSize maxVulnerabilities : Nat) (l : List Vuln)
    (hbs : 0 < batchSize) :
    analyzeVulnerabilities true provider now batchSize maxVulnerabilities l =
      some (((prioritizeVulnerabilities l).take (min l.length maxVulnerabilities)).map
          (analyzeOne true provider now) ++
        (prioritizeVulnerabilities l).drop (min l.length maxVulnerabilities)) ∧
    ((prioritizeVulnerabilities l).take (min l.length maxVulnerabilities)).length =
      min l.length maxVulnerabilities ∧
    ((prioritizeVulnerabilities l).take (min l.length maxVulnerabilities)).length +
      ((prioritizeVulnerabilities l).drop (min l.length maxVulnerabilities)).length =
      l.length := by
  have hplen : (prioritizeVulnerabilities l).length = l.length :=
    (jsStableSort_perm vulnCompare l).length_eq
  have hlen1 : ((prioritizeVulnerabilities l).take (min l.length maxVulnerabilities)).length =
      min l.length maxVulnerabilities := by
    rw [List.length_take, hplen]
    omega
  have hlen2 : ((prioritizeVulnerabilities l).drop (min l.length maxVulnerabilities)).length =
      l.length - min l.length maxVulnerabilities := by
    rw [List.length_drop, hplen]
  refine ⟨?_, hlen1, by rw [hlen1, hlen2]; omega⟩
  unfold analyzeVulnerabilities
  rcases l with _ | ⟨v, vs⟩
  · have hp : prioritizeVulnerabilities [] = [] := rfl
    simp [hp]
  · simp only [List.isEmpty_cons, Bool.not_true, Bool.false_or,
      Bool.false_eq_true, if_false]
    rw [hplen]
    rw [processBatchesFuel_complete _ _ _ hbs _ 0 [] (by omega)]
    simp

/-- Scenario A input: severities [High, Medium, Low, Informational, High]. -/
def scenarioA : List Vuln :=
  [mkVuln "a" (some "High"), mkVuln "b" (some "Medium"),
   mkVuln "c" (some "Low"), mkVuln "d" (some "Informational"),
   mkVuln "e" (some "High")]

/-- Witness for C7: maxFindings 3, batchSize 2 on the Scenario A input. -/
theorem analyzeVulnerabilities_budget_witness :
    0 < 2 ∧
    (analyzeVulnerabilities true (fun _ => ProviderBehaviour.timeout) "t" 2 3 scenarioA =
      some (((prioritizeVulnerabilities scenarioA).take (min scenarioA.length 3)).map
          (analyzeOne true (fun _ => ProviderBehaviour.timeout) "t") ++
        (prioritizeVulnerabilities scenarioA).drop (min scenarioA.length 3)) ∧
    ((prioritizeVulnerabilities scenarioA).take (min scenarioA.length 3)).length =
      min scenarioA.length 3 ∧
    ((prioritizeVulnerabilities scenarioA).take (min scenarioA.length 3)).length +
      ((prioritizeVulnerabilities scenarioA).drop (min scenarioA.length 3)).length =
      scenarioA.length) :=
  ⟨by decide, analyzeVulnerabilities_budget (fun _ => ProviderBehaviour.timeout)
    "t" 2 3 scenarioA (by decide)⟩

/-- Claim C10: nothing in the repository rejects a non-positive batch size —
no ConfigurationError exists and `config.example.js` performs no
validation — so `batchSize = 0` reaches the batch loop at call time, the
loop is entered, and it never completes: the iteration bound is exceeded
for every finite bound, on a single selected finding. -/
theorem batchSizeZero_reaches_loop_and_hangs (fuel : Nat) (v : Vuln)
    (analyze : Vuln → Vuln) :
    processBatchesFuel analyze [v] 0 fuel 0 [] = none ∧
    analyzeVulnerabilities true (fun _ => ProviderBehaviour.timeout) "t" 0 10 [v] =
      none := by
  constructor
  · exact processBatchesFuel_zero_stuck analyze [v] fuel 0 [] (by simp)
  · unfold analyzeVulnerabilities
    simp only [List.isEmpty_cons, Bool.not_true, Bool.false_or,
      Bool.false_eq_true, if_false]
    have hp : prioritizeVulnerabilities [v] = [v] := rfl
    rw [processBatchesFuel_zero_stuck _ _ _ 0 [] (by simp [hp])]

/-! ## Fallback executive summary (`AIAnalyzer.generateFallbackSummary`)

Source (`src/ai-analyzer.js` lines 620-657). The function reads only
`scanResults.totalFindings` and `scanResults.riskBreakdown` (with `|| 0`
defaults); the pass/fail test counts present in the pipeline's
`scanResults` object are not consulted. `generatedAt` is
`new Date().toISOString()`, modelled by the explicit `now` parameter. -/

/-- `scanResults.riskBreakdown` (the JS properties are `High`, `Medium`,
`Low`). -/
structure RiskBreakdown where
  high : Nat
  medium : Nat
  low : Nat
deriving DecidableEq, Repr

/-- The part of the `scanResults` argument `generateFallbackSummary` reads;
`Option` models possibly-missing properties. -/
structure ScanCounts where
  totalFindings : Option Nat
  riskBreakdown : Option RiskBreakdown
deriving DecidableEq, Repr

/-- The object returned by `generateFallbackSummary`. -/
structure FallbackSummary where
  summary : String
  overallPosture : String
  keyRisks : String
  businessImpact : String
  immediateActions : String
  recommendations : String
  timeline : String
  generatedAt : String
  method : String
deriving DecidableEq, Repr

/-- `AIAnalyzer.generateFallbackSummary`. -/
def generateFallbackSummary (scanResults : ScanCounts) (now : String) :
    FallbackSummary :=
  let total := scanResults.totalFindings.getD 0
  let high := (scanResults.riskBreakdown.map RiskBreakdown.high).getD 0
  let medium := (scanResults.riskBreakdown.map RiskBreakdown.medium).getD 0
  let low := (scanResults.riskBreakdown.map RiskBreakdown.low).getD 0
  let posture :=
    if high > 3 then "Critical Issues Identified"
    else if high > 0 || medium > 5 then "Security Concerns Present"
    else if medium > 0 || low > 10 then "Minor Issues Detected"
    else "Good"
  let riskLevel :=
    if high > 3 then "High"
    else if high > 0 || medium > 5 then "Medium"
    else "Low"
  { summary := "Security assessment completed with " ++ toString total ++
      " total findings. Overall security posture: " ++ posture ++
      ". \n    Risk breakdown: " ++ toString high ++ " high-risk, " ++
      toString medium ++ " medium-risk, and " ++ toString low ++
      " low-risk vulnerabilities identified.\n    " ++
      (if high > 0 then
        "Immediate attention required for high-risk vulnerabilities." else "") ++
      "\n    " ++
      (if medium > 3 then
        "Medium-risk issues should be addressed in the next development cycle."
      else "")
    overallPosture := posture
    keyRisks := if high > 0 then
        "High-risk vulnerabilities require immediate attention"
      else "No critical risks identified"
    businessImpact := if riskLevel = "High" then
        "Potential for significant business impact"
      else "Limited business impact expected"
    immediateActions := if high > 0 then
        "Address high-risk vulnerabilities immediately"
      else "Review and plan remediation for identified issues"
    recommendations :=
      "Implement security best practices and regular vulnerability assessments"
    timeline := if high > 0 then
        "High-risk: Immediate, Medium-risk: 30 days, Low-risk: 90 days"
      else "Address issues within standard development cycles"
    generatedAt := now
    method := "rule-based-fallback" }

/-- Counts of the demo scan: 12 findings, 3 High / 5 Medium / 4 Low. -/
def demoCounts : ScanCounts := ⟨some 12, some ⟨3, 5, 4⟩⟩

/-- Claim C8 counterexample: two calls with identical counts made at
different times differ in the `generatedAt` field of the returned object —
the output is not byte-identical. -/
theorem generateFallbackSummary_timestamp_counterexample :
    (generateFallbackSummary demoCounts "2024-01-01T00:00:00.000Z").generatedAt ≠
      (generateFallbackSummary demoCounts "2024-01-01T00:00:01.000Z").generatedAt ∧
    generateFallbackSummary demoCounts "2024-01-01T00:00:00.000Z" ≠
      generateFallbackSummary demoCounts "2024-01-01T00:00:01.000Z" := by
  constructor
  · decide
  · intro h
    exact absurd (congrArg FallbackSummary.generatedAt h) (by decide)

/-- Claim C8 (amended): every field of the fallback summary except the
`generatedAt` timestamp is a pure function of the counts — two calls with
identical counts agree byte-for-byte on the narrative text and all section
fields — and more than 3 High findings yields the posture
"Critical Issues Identified". -/
theorem generateFallbackSummary_deterministic (s : ScanCounts) (t1 t2 : String) :
    ((generateFallbackSummary s t1).summary = (generateFallbackSummary s t2).summary ∧
     (generateFallbackSummary s t1).overallPosture =
       (generateFallbackSummary s t2).overallPosture ∧
     (generateFallbackSummary s t1).keyRisks = (generateFallbackSummary s t2).keyRisks ∧
     (generateFallbackSummary s t1).businessImpact =
       (generateFallbackSummary s t2).businessImpact ∧
     (generateFallbackSummary s t1).immediateActions =
       (generateFallbackSummary s t2).immediateActions ∧
     (generateFallbackSummary s t1).recommendations =
       (generateFallbackSummary s t2).recommendations ∧
     (generateFallbackSummary s t1).timeline = (generateFallbackSummary s t2).timeline ∧
     (generateFallbackSummary s t1).method = (generateFallbackSummary s t2).method) ∧
    (3 < (s.riskBreakdown.map RiskBreakdown.high).getD 0 →
      (generateFallbackSummary s t1).overallPosture = "Critical Issues Identified") := by
  refine ⟨⟨rfl, rfl, rfl, rfl, rfl, rfl, rfl, rfl⟩, ?_⟩
  intro h
  simp [generateFallbackSummary, h]

/-- Counts with more than 3 High findings. -/
def criticalCounts : ScanCounts := ⟨some 9, some ⟨5, 1, 3⟩⟩

/-- Witness for the amended C8: concrete counts and two distinct call
times. -/
theorem generateFallbackSummary_deterministic_witness :
    ((generateFallbackSummary criticalCounts "a").summary =
       (generateFallbackSummary criticalCounts "b").summary ∧
     (generateFallbackSummary criticalCounts "a").overallPosture =
       (generateFallbackSummary criticalCounts "b").overallPosture ∧
     (generateFallbackSummary criticalCounts "a").keyRisks =
       (generateFallbackSummary criticalCounts "b").keyRisks ∧
     (generateFallbackSummary criticalCounts "a").businessImpact =
       (generateFallbackSummary criticalCounts "b").businessImpact ∧
     (generateFallbackSummary criticalCounts "a").immediateActions =
       (generateFallbackSummary criticalCounts "b").immediateActions ∧
     (generateFallbackSummary criticalCounts "a").recommendations =
       (generateFallbackSummary criticalCounts "b").recommendations ∧
     (generateFallbackSummary criticalCounts "a").timeline =
       (generateFallbackSummary criticalCounts "b").timeline ∧
     (generateFallbackSummary criticalCounts "a").method =
       (generateFallbackSummary criticalCounts "b").method) ∧
    (generateFallbackSummary criticalCounts "a").overallPosture =
      "Critical Issues Identified" :=
  ⟨(generateFallbackSummary_deterministic criticalCounts "a" "b").1,
    (generateFallbackSummary_deterministic criticalCounts "a" "b").2 (by decide)⟩

/-! ## The pipeline orchestrator (`TestRunner.run`)

Source: `TestRunner` (the class with `initialize`, `setupZAPSession`,
`runTests`, `runSecurityScan`, `runAIAnalysis`, `generateReport`, `run`).
Collaborator behaviours are parameters; payloads that never influence the
control flow (test records, spider/active-scan job ids, report contents)
are reduced to `Unit`/strings. The stage helpers return their JS boolean
plus whatever state they write into `this.results`.

Control flow of `run()` as written:

```js
const initSuccess = await this.initialize();
if (!initSuccess) throw new Error('Framework initialization failed');
const zapSetup = await this.setupZAPSession();
if (!zapSetup) throw new Error('ZAP session setup failed');
const testSuccess = await this.runTests();
if (!testSuccess) throw new Error('Test execution failed');
const scanSuccess = await this.runSecurityScan();
if (!scanSuccess) this.log('Security scan failed, continuing...', 'warn');
const aiSuccess = await this.runAIAnalysis();
if (!aiSuccess) this.log('AI analysis failed, continuing...', 'warn');
const reportPaths = await this.generateReport();   // rethrows on failure
return { success: true, ... };
// catch (error) { return { success: false, ... } }
```

Note the third guard: a `runTests` failure throws, is caught by the
`run`-level catch, and the run returns `success: false` without ever
reaching `generateReport` — unlike the scan and AI stages, which only log a
warning and continue. -/

/-- Outcomes of the external collaborators for one run. -/
structure CollabOutcomes where
  /-- `reportGenerator.initialize()` returned a truthy value. -/
  reportInitOk : Bool
  /-- `zapClient.checkZAPStatus()` returned a truthy value. -/
  zapStatusOk : Bool
  /-- `testScenarios.initialize()` returned a truthy value. -/
  testInitOk : Bool
  /-- `setupZAPSession()` succeeded (its own try/catch already reduced the
  ZAP session calls to a boolean). -/
  zapSessionOk : Bool
  /-- `testScenarios.runAllTests()`: test records, or a thrown error. -/
  testsRun : Except String Unit
  /-- The scan block: a thrown error, or the `getScanSummary()` result
  (`none` when ZAP returned nothing). -/
  scanOutcome : Except String (Option (List Vuln))
  /-- The body of `runAIAnalysis`'s try block: completed or threw. -/
  aiOutcome : Except String Unit
  /-- `generateReport()`: the report path, or a thrown error. -/
  renderOutcome : Except String String
deriving Repr

/-- The two simulated findings of `TestRunner.addMockFindings`, substituted
when the scan stage fails or returns nothing. -/
def mockFindings (cfgUrl : String) : List Vuln :=
  [⟨"Cross-Site Scripting (XSS)", some "Medium",
    "Potential XSS vulnerability detected in search functionality",
    cfgUrl ++ "/rest/products/search", "q",
    "<script>alert(\"XSS\")</script>",
    "Implement proper input validation and output encoding",
    "https://owasp.org/www-community/attacks/xss/", none⟩,
   ⟨"SQL Injection", some "High",
    "Potential SQL injection vulnerability in search parameter",
    cfgUrl ++ "/rest/products/search", "q",
    "\x27 OR 1=1--",
    "Use parameterized queries to prevent SQL injection",
    "https://owasp.org/www-community/attacks/SQL_Injection", none⟩]

/-- `TestRunner.initialize`: each collaborator failure throws inside its
own try, is caught, and the method returns false. -/
def runnerInit (co : CollabOutcomes) : Bool :=
  co.reportInitOk && co.zapStatusOk && co.testInitOk

/-- `TestRunner.runSecurityScan`, reduced to what reaches `run()`: the
returned boolean and the findings written into `this.results`. The spider
and active-scan steps cannot fail the stage (a `null` job id only logs a
warning), so only the passive-scan flag, the summary retrieval and the
catch branch are modelled. `this.results.vulnerabilities` is empty when
this method runs, so the `length === 0` guard before `addMockFindings`
holds. -/
def runSecurityScan (passiveEnabled : Bool) (cfgUrl : String)
    (outcome : Except String (Option (List Vuln))) : Bool × List Vuln :=
  match outcome with
  | .error _ => (false, mockFindings cfgUrl)
  | .ok osum =>
    if passiveEnabled then
      match osum with
      | some alerts => (true, alerts)
      | none => (true, mockFindings cfgUrl)
    else (true, [])

/-- `TestRunner.runAIAnalysis`: the returned boolean together with the
final `this.results.vulnerabilities`. When AI is disabled or there is
nothing to analyze, the findings are untouched. Otherwise the try block
runs `analyzeVulnerabilities(this.results.vulnerabilities)` — which first
sorts that array *in place* — and reassigns
`this.results.vulnerabilities = analyzedVulnerabilities`; the later steps
(`detectFalsePositives`, `calculateRiskScore`,
`generateExecutiveSummary`) all catch internally and never throw nor touch
the findings. A throw (`outcome = .error`, e.g. a broken
`config.ai.rateLimits`) therefore happens inside `analyzeVulnerabilities`
after its in-place sort and before the reassignment: the catch returns
false with the findings left prioritized but unannotated. `none` models
the batch loop never terminating (batch size 0, claim C10): the stage —
and with it the whole run — never returns. -/
def runAIAnalysis (aiEnabled : Bool) (provider : Vuln → ProviderBehaviour)
    (now : String) (batchSize maxVulnerabilities : Nat)
    (outcome : Except String Unit) (vulns : List Vuln) :
    Option (Bool × List Vuln) :=
  if !aiEnabled then some (true, vulns)
  else if vulns.isEmpty then some (true, vulns)
  else
    match outcome with
    | .error _ => some (false, prioritizeVulnerabilities vulns)
    | .ok _ =>
      match analyzeVulnerabilities aiEnabled provider now batchSize
          maxVulnerabilities vulns with
      | none => none
      | some analyzed => some (true, analyzed)

/-- What one run observably produces: `success` and `reportGenerated`
reflect which return path of `run()` was taken (`generateReport` rethrows,
so `reportGenerated = true` exactly on the `success: true` path);
`scanDegraded` / `aiDegraded` are the two warn logs; `vulnerabilities` is
the final `this.results.vulnerabilities` — the scan stage's findings as
further reordered, annotated and reassigned by the enrichment stage. -/
structure RunOutcome where
  success : Bool
  reportGenerated : Bool
  scanDegraded : Bool
  aiDegraded : Bool
  vulnerabilities : List Vuln
deriving DecidableEq, Repr

/-- `TestRunner.run`. `none` is the run never returning because the
enrichment batch loop hangs (non-positive batch size, claim C10). -/
def TestRunner.run (aiEnabled passiveEnabled : Bool) (cfgUrl : String)
    (provider : Vuln → ProviderBehaviour) (now : String)
    (batchSize maxVulnerabilities : Nat) (co : CollabOutcomes) :
    Option RunOutcome :=
  if !(runnerInit co) then some ⟨false, false, false, false, []⟩
  else if !co.zapSessionOk then some ⟨false, false, false, false, []⟩
  else
    match co.testsRun with
    | .error _ => some ⟨false, false, false, false, []⟩
    | .ok _ =>
      let scanRes := runSecurityScan passiveEnabled cfgUrl co.scanOutcome
      match runAIAnalysis aiEnabled provider now batchSize maxVulnerabilities
          co.aiOutcome scanRes.2 with
      | none => none
      | some aiRes =>
        match co.renderOutcome with
        | .error _ => some ⟨false, false, !scanRes.1, !aiRes.1, aiRes.2⟩
        | .ok _ => some ⟨true, true, !scanRes.1, !aiRes.1, aiRes.2⟩

theorem analyzeVulnerabilities_isSome (isEnabled : Bool)
    (provider : Vuln → ProviderBehaviour) (now : String)
    (batchSize maxVulnerabilities : Nat) (l : List Vuln)
    (hbs : 0 < batchSize) :
    ∃ r, analyzeVulnerabilities isEnabled provider now batchSize
      maxVulnerabilities l = some r := by
  unfold analyzeVulnerabilities
  split
  · exact ⟨_, rfl⟩
  · dsimp only
    rw [processBatchesFuel_complete _ _ _ hbs _ 0 [] (by omega)]
    exact ⟨_, rfl⟩

theorem runAIAnalysis_isSome (aiEnabled : Bool)
    (provider : Vuln → ProviderBehaviour) (now : String)
    (batchSize maxVulnerabilities : Nat) (outcome : Except String Unit)
    (vulns : List Vuln) (hbs : 0 < batchSize) :
    ∃ r, runAIAnalysis aiEnabled provider now batchSize maxVulnerabilities
      outcome vulns = some r := by
  unfold runAIAnalysis
  split
  · exact ⟨_, rfl⟩
  split
  · exact ⟨_, rfl⟩
  cases outcome with
  | error e => exact ⟨_, rfl⟩
  | ok u =>
    obtain ⟨r, hr⟩ := analyzeVulnerabilities_isSome aiEnabled provider now
      batchSize maxVulnerabilities vulns hbs
    rw [hr]
    exact ⟨_, rfl⟩

theorem runAIAnalysis_disabled (provider : Vuln → ProviderBehaviour)
    (now : String) (batchSize maxVulnerabilities : Nat)
    (outcome : Except String Unit) (vulns : List Vuln) :
    runAIAnalysis false provider now batchSize maxVulnerabilities
      outcome vulns = some (true, vulns) := rfl

theorem runAIAnalysis_enabled_ok (provider : Vuln → ProviderBehaviour)
    (now : String) (batchSize maxVulnerabilities : Nat) (vulns : List Vuln)
    (hne : vulns.isEmpty = false) :
    runAIAnalysis true provider now batchSize maxVulnerabilities
      (.ok ()) vulns =
      (analyzeVulnerabilities true provider now batchSize maxVulnerabilities
        vulns).map (fun a => (true, a)) := by
  unfold runAIAnalysis
  rw [if_neg (by simp), if_neg (by simp [hne])]
  cases analyzeVulnerabilities true provider now batchSize maxVulnerabilities
    vulns <;> rfl

theorem runAIAnalysis_enabled_error (provider : Vuln → ProviderBehaviour)
    (now : String) (batchSize maxVulnerabilities : Nat) (e : String)
    (vulns : List Vuln) (hne : vulns.isEmpty = false) :
    runAIAnalysis true provider now batchSize maxVulnerabilities
      (.error e) vulns = some (false, prioritizeVulnerabilities vulns) := by
  unfold runAIAnalysis
  rw [if_neg (by simp), if_neg (by simp [hne])]

/-- A run where every collaborator works except the test runner, which
throws. -/
def testsFailOutcomes : CollabOutcomes :=
  ⟨true, true, true, true, .error "Browser crashed",
    .ok (some []), .ok (), .ok "reports/security-report.html"⟩

/-- Claim C1 counterexample: when the test-runner collaborator throws,
`run()` aborts with `success: false` and never reaches report generation —
the tests stage is fatal, not degrade-and-continue. -/
theorem run_testsFailure_counterexample :
    TestRunner.run true true "http://localhost:3000"
      (fun _ => ProviderBehaviour.timeout) "t" 2 10 testsFailOutcomes =
      some ⟨false, false, false, false, []⟩ := by decide

/-- Claim C1 (amended): with setup, ZAP session, tests and rendering all
succeeding (and a positive batch size, see C10), a failure inside the scan
or enrichment stage does not stop the run — it is logged and the report is
still generated. On a scan failure the mock findings are substituted and
flow to the report through the enrichment stage: when that stage completes
(or AI is disabled), the final findings are exactly
`analyzeVulnerabilities` applied to the mock findings; when the enrichment
stage throws, they are the mock findings as already prioritized in place.
A tests-stage failure, by contrast, aborts the run without a report, like
setup and rendering failures. -/
theorem TestRunner_run_resilience (aiEnabled passiveEnabled : Bool)
    (cfgUrl : String) (provider : Vuln → ProviderBehaviour) (now : String)
    (batchSize maxVulnerabilities : Nat) (co : CollabOutcomes)
    (hinit : runnerInit co = true) (hzap : co.zapSessionOk = true)
    (hbs : 0 < batchSize) :
    (∀ u p, co.testsRun = .ok u → co.renderOutcome = .ok p →
      ∃ out, TestRunner.run aiEnabled passiveEnabled cfgUrl provider now
          batchSize maxVulnerabilities co = some out ∧
        out.reportGenerated = true ∧ out.success = true ∧
        (∀ e, co.scanOutcome = .error e →
          out.scanDegraded = true ∧
          (co.aiOutcome = .ok () ∨ aiEnabled = false →
            analyzeVulnerabilities aiEnabled provider now batchSize
              maxVulnerabilities (mockFindings cfgUrl) =
              some out.vulnerabilities) ∧
          (aiEnabled = true → ∀ e2, co.aiOutcome = .error e2 →
            out.aiDegraded = true ∧
            out.vulnerabilities = prioritizeVulnerabilities (mockFindings cfgUrl)))) ∧
    (∀ e, co.testsRun = .error e →
      TestRunner.run aiEnabled passiveEnabled cfgUrl provider now batchSize
        maxVulnerabilities co = some ⟨false, false, false, false, []⟩) := by
  constructor
  · intro u p htests hrender
    obtain ⟨ar, har⟩ := runAIAnalysis_isSome aiEnabled provider now batchSize
      maxVulnerabilities co.aiOutcome
      (runSecurityScan passiveEnabled cfgUrl co.scanOutcome).2 hbs
    have hrun : TestRunner.run aiEnabled passiveEnabled cfgUrl provider now
        batchSize maxVulnerabilities co =
        some ⟨true, true, !(runSecurityScan passiveEnabled cfgUrl co.scanOutcome).1,
          !ar.1, ar.2⟩ := by
      simp only [TestRunner.run, hinit, hzap, htests, hrender, Bool.not_true,
        Bool.false_eq_true, if_false]
      rw [har]
    refine ⟨_, hrun, rfl, rfl, ?_⟩
    intro e hscan
    have hsr : runSecurityScan passiveEnabled cfgUrl co.scanOutcome =
        (false, mockFindings cfgUrl) := by rw [hscan]; rfl
    rw [hsr] at har
    replace har : runAIAnalysis aiEnabled provider now batchSize
        maxVulnerabilities co.aiOutcome (mockFindings cfgUrl) = some ar := har
    have hne : (mockFindings cfgUrl).isEmpty = false := rfl
    refine ⟨?_, ?_, ?_⟩
    · show (!(runSecurityScan passiveEnabled cfgUrl co.scanOutcome).1) = true
      rw [hsr]
      rfl
    · intro hA
      show analyzeVulnerabilities aiEnabled provider now batchSize
        maxVulnerabilities (mockFindings cfgUrl) = some ar.2
      rcases hA with hok | hdis
      · cases aiEnabled with
        | false =>
            rw [runAIAnalysis_disabled] at har
            cases har
            rfl
        | true =>
            rw [hok, runAIAnalysis_enabled_ok _ _ _ _ _ hne] at har
            cases hAv : analyzeVulnerabilities true provider now batchSize
                maxVulnerabilities (mockFindings cfgUrl) with
            | none => rw [hAv] at har; exact Option.noConfusion har
            | some r =>
                rw [hAv] at har
                injection har with h
                cases h
                rfl
      · cases hdis
        rw [runAIAnalysis_disabled] at har
        cases har
        rfl
    · intro haiE e2 hai2
      cases haiE
      rw [hai2, runAIAnalysis_enabled_error _ _ _ _ _ _ hne] at har
      cases har
      exact ⟨rfl, rfl⟩
  · intro e htests
    simp [TestRunner.run, hinit, hzap, htests]

/-- A run where only the scan stage fails. -/
def scanFailOutcomes : CollabOutcomes :=
  ⟨true, true, true, true, .ok (), .error "ZAP connection lost",
    .ok (), .ok "reports/security-report.html"⟩

/-- Witness for the amended C1: a concrete run whose scan stage throws
still renders the report, with the mock findings substituted, pushed
through the enrichment stage, and the scan stage marked degraded. -/
theorem TestRunner_run_resilience_witness :
    ∃ out, TestRunner.run true true "http://localhost:3000"
        (fun _ => ProviderBehaviour.timeout) "t" 2 10 scanFailOutcomes =
        some out ∧
      out.reportGenerated = true ∧ out.success = true ∧
      out.scanDegraded = true ∧
      analyzeVulnerabilities true (fun _ => ProviderBehaviour.timeout) "t" 2 10
        (mockFindings "http://localhost:3000") = some out.vulnerabilities := by
  have h := TestRunner_run_resilience true true "http://localhost:3000"
    (fun _ => ProviderBehaviour.timeout) "t" 2 10 scanFailOutcomes rfl rfl
    (by decide)
  obtain ⟨out, hout, h1, h2, hsc⟩ := h.1 () "reports/security-report.html" rfl rfl
  obtain ⟨h3, h4, _⟩ := hsc "ZAP connection lost" rfl
  exact ⟨out, hout, h1, h2, h3, h4 (Or.inl rfl)⟩

end SecScan
